import Mathlib

/- Shallow embedding of the virtual-trading core of the Bot_PRO repository.

   Sources embedded here:
   - virtual_trading/services/balance_manager.py   (BalanceManager)
   - virtual_trading/models/position.py            (VirtualPosition)
   - virtual_trading/models/trade.py               (ClosedTrade)
   - virtual_trading/services/position_manager.py  (PositionManager)
   - virtual_trading/services/statistics_calculator.py (StatisticsCalculator)
   - core/timing_manager.py                        (SmartTimingManager, PendingEntry)

   Python floats are modelled as rationals (ℚ); datetimes are modelled as
   rational minute timestamps; Python dicts keyed by symbol are modelled as
   insertion-ordered association lists. -/

/-! ## Balance ledger (virtual_trading/services/balance_manager.py) -/

structure BalanceState where
  initial_balance : ℚ
  available_balance : ℚ
  position_size_percent : ℚ
  position_size_usd : ℚ
  max_exposure_percent : ℚ
  max_exposure_usd : ℚ
  total_realized_pnl : ℚ
deriving DecidableEq

/-- Embeds `BalanceManager.__init__`. -/
def mkBalanceManager (initial pct maxPct : ℚ) : BalanceState :=
  { initial_balance := initial
    available_balance := initial
    position_size_percent := pct
    position_size_usd := initial * (pct / 100)
    max_exposure_percent := maxPct
    max_exposure_usd := initial * (maxPct / 100)
    total_realized_pnl := 0 }

/-- Embeds `BalanceManager.reserve_funds`: succeeds iff `available_balance >= amount`,
    deducting the amount from the available balance. -/
def reserve_funds (s : BalanceState) (amount : ℚ) : Bool × BalanceState :=
  if s.available_balance ≥ amount then
    (true, { s with available_balance := s.available_balance - amount })
  else
    (false, s)

/-- Embeds `BalanceManager.release_funds`: adds `amount + pnl` to the available
    balance and accumulates `pnl` into `total_realized_pnl`. -/
def release_funds (s : BalanceState) (amount pnl : ℚ) : BalanceState :=
  { s with
      available_balance := s.available_balance + amount + pnl
      total_realized_pnl := s.total_realized_pnl + pnl }

/-- One call into the ledger: `reserve_funds(amount)` or `release_funds(amount, pnl)`. -/
inductive LedgerOp where
  | reserve (amount : ℚ)
  | release (amount pnl : ℚ)
deriving DecidableEq

def applyLedgerOp (s : BalanceState) : LedgerOp → BalanceState
  | .reserve a => (reserve_funds s a).2
  | .release a p => release_funds s a p

def runLedgerOps (s : BalanceState) : List LedgerOp → BalanceState
  | [] => s
  | op :: rest => runLedgerOps (applyLedgerOp s op) rest

/-- Total amount actually deducted by the reserve calls of the trace
    (a failed `reserve_funds` deducts nothing). -/
def reservedOf (s : BalanceState) : List LedgerOp → ℚ
  | [] => 0
  | .reserve a :: rest =>
      (if s.available_balance ≥ a then a else 0)
        + reservedOf (applyLedgerOp s (.reserve a)) rest
  | .release a p :: rest => reservedOf (applyLedgerOp s (.release a p)) rest

/-- Total notional passed to the release calls of the trace. -/
def releasedOf : List LedgerOp → ℚ
  | [] => 0
  | .reserve _ :: rest => releasedOf rest
  | .release a _ :: rest => a + releasedOf rest

/-- Total pnl passed to the release calls of the trace. -/
def pnlOf : List LedgerOp → ℚ
  | [] => 0
  | .reserve _ :: rest => pnlOf rest
  | .release _ p :: rest => p + pnlOf rest

/-- Total amount requested by the reserve calls of the trace. -/
def reserveAmountsSum : List LedgerOp → ℚ
  | [] => 0
  | .reserve a :: rest => a + reserveAmountsSum rest
  | .release _ _ :: rest => reserveAmountsSum rest

/-- Every `reserve_funds` call in the trace succeeds when applied in order. -/
def allReservesOk (s : BalanceState) : List LedgerOp → Bool
  | [] => true
  | .reserve a :: rest =>
      decide (s.available_balance ≥ a) && allReservesOk (applyLedgerOp s (.reserve a)) rest
  | .release a p :: rest => allReservesOk (applyLedgerOp s (.release a p)) rest

theorem runLedgerOps_available (ops : List LedgerOp) : ∀ s : BalanceState,
    (runLedgerOps s ops).available_balance
      = s.available_balance - reservedOf s ops + releasedOf ops + pnlOf ops := by
  induction ops with
  | nil => intro s; simp [runLedgerOps, reservedOf, releasedOf, pnlOf]
  | cons op rest ih =>
    intro s
    cases op with
    | reserve a =>
      by_cases h : s.available_balance ≥ a
      · simp only [runLedgerOps, reservedOf, releasedOf, pnlOf, applyLedgerOp,
          reserve_funds, if_pos h, ih]
        ring
      · simp only [runLedgerOps, reservedOf, releasedOf, pnlOf, applyLedgerOp,
          reserve_funds, if_neg h, ih]
        ring
    | release a p =>
      simp only [runLedgerOps, reservedOf, releasedOf, pnlOf, applyLedgerOp,
        release_funds, ih]
      ring

theorem runLedgerOps_realized (ops : List LedgerOp) : ∀ s : BalanceState,
    (runLedgerOps s ops).total_realized_pnl = s.total_realized_pnl + pnlOf ops := by
  induction ops with
  | nil => intro s; simp [runLedgerOps, pnlOf]
  | cons op rest ih =>
    intro s
    cases op with
    | reserve a =>
      by_cases h : s.available_balance ≥ a
      · simp only [runLedgerOps, pnlOf, applyLedgerOp, reserve_funds, if_pos h, ih]
      · simp only [runLedgerOps, pnlOf, applyLedgerOp, reserve_funds, if_neg h, ih]
    | release a p =>
      simp only [runLedgerOps, pnlOf, applyLedgerOp, release_funds, ih]
      ring

theorem reservedOf_eq_sum (ops : List LedgerOp) : ∀ s : BalanceState,
    allReservesOk s ops = true → reservedOf s ops = reserveAmountsSum ops := by
  induction ops with
  | nil => intro s _; simp [reservedOf, reserveAmountsSum]
  | cons op rest ih =>
    intro s hok
    cases op with
    | reserve a =>
      simp only [allReservesOk, Bool.and_eq_true, decide_eq_true_eq] at hok
      simp only [reservedOf, reserveAmountsSum, if_pos hok.1, ih _ hok.2]
    | release a p =>
      simp only [allReservesOk] at hok
      simp only [reservedOf, reserveAmountsSum, ih _ hok]

/-- C1: starting from a fresh BalanceManager with initial balance `B`, after any
    finite trace of successful `reserve_funds` and `release_funds` calls in which
    the total reserved equals the total released, the available balance differs
    from `B + total_realized_pnl` by at most $0.01 (in the rational model the
    difference is exactly 0). -/
theorem c1_ledger_identity (B pct maxPct : ℚ) (ops : List LedgerOp)
    (hok : allReservesOk (mkBalanceManager B pct maxPct) ops = true)
    (hbal : reserveAmountsSum ops = releasedOf ops) :
    |(runLedgerOps (mkBalanceManager B pct maxPct) ops).available_balance
      - (B + (runLedgerOps (mkBalanceManager B pct maxPct) ops).total_realized_pnl)|
      ≤ 1 / 100 := by
  rw [runLedgerOps_available ops, runLedgerOps_realized ops,
    reservedOf_eq_sum ops _ hok, hbal]
  have h0 : (mkBalanceManager B pct maxPct).available_balance = B := rfl
  have h1 : (mkBalanceManager B pct maxPct).total_realized_pnl = 0 := rfl
  rw [h0, h1]
  have h2 : B - releasedOf ops + releasedOf ops + pnlOf ops - (B + (0 + pnlOf ops)) = 0 := by
    ring
  rw [h2]
  norm_num

/-- Witness for C1 on a concrete trace: reserve $200, then release it in two
    halves with P&L $4 and $0. -/
theorem c1_ledger_identity_witness :
    allReservesOk (mkBalanceManager 10000 2 20)
        [LedgerOp.reserve 200, LedgerOp.release 100 4, LedgerOp.release 100 0] = true
    ∧ reserveAmountsSum [LedgerOp.reserve 200, LedgerOp.release 100 4, LedgerOp.release 100 0]
        = releasedOf [LedgerOp.reserve 200, LedgerOp.release 100 4, LedgerOp.release 100 0]
    ∧ |(runLedgerOps (mkBalanceManager 10000 2 20)
          [LedgerOp.reserve 200, LedgerOp.release 100 4, LedgerOp.release 100 0]).available_balance
        - (10000 + (runLedgerOps (mkBalanceManager 10000 2 20)
          [LedgerOp.reserve 200, LedgerOp.release 100 4, LedgerOp.release 100 0]).total_realized_pnl)|
        ≤ 1 / 100 :=
  ⟨by norm_num [allReservesOk, applyLedgerOp, reserve_funds, release_funds, mkBalanceManager],
   by norm_num [reserveAmountsSum, releasedOf],
   c1_ledger_identity 10000 2 20 _
     (by norm_num [allReservesOk, applyLedgerOp, reserve_funds, release_funds, mkBalanceManager])
     (by norm_num [reserveAmountsSum, releasedOf])⟩

/-! ## Position model (virtual_trading/models/position.py) -/

structure VirtualPosition where
  symbol : String
  direction : String
  entry_price : ℚ
  entry_time : ℚ
  position_size_usd : ℚ
  quantity : ℚ
  stop_loss : ℚ
  tp1 : ℚ
  tp2 : ℚ
  tp3 : ℚ
  tp1_filled : Bool
  tp2_filled : Bool
  tp3_filled : Bool
  sl_moved_to_breakeven : Bool
  current_sl : ℚ
  realized_pnl : ℚ
deriving DecidableEq

/-- Embeds the `VirtualPosition` dataclass constructor together with
    `__post_init__`: fill flags start false, `current_sl` starts at `stop_loss`,
    `realized_pnl` starts at 0.  The watermark fields (`max_profit_usd`,
    `max_loss_usd`) and the `timing_info` snapshot are metadata untouched by the
    operations embedded here and are not tracked. -/
def mkVirtualPosition (symbol direction : String)
    (entry_price entry_time size qty sl t1 t2 t3 : ℚ) : VirtualPosition :=
  { symbol := symbol, direction := direction, entry_price := entry_price
    entry_time := entry_time, position_size_usd := size, quantity := qty
    stop_loss := sl, tp1 := t1, tp2 := t2, tp3 := t3
    tp1_filled := false, tp2_filled := false, tp3_filled := false
    sl_moved_to_breakeven := false, current_sl := sl, realized_pnl := 0 }

/-- Embeds `VirtualPosition.get_remaining_percent`. -/
def VirtualPosition.get_remaining_percent (p : VirtualPosition) : ℤ :=
  let percent : ℤ := 100
  let percent := if p.tp1_filled then percent - 50 else percent
  let percent := if p.tp2_filled then percent - 25 else percent
  let percent := if p.tp3_filled then percent - 25 else percent
  max 0 percent

/-- Embeds `VirtualPosition.get_remaining_quantity`. -/
def VirtualPosition.get_remaining_quantity (p : VirtualPosition) : ℚ :=
  let remaining := p.quantity
  let remaining := if p.tp1_filled then remaining - p.quantity * (1/2) else remaining
  let remaining := if p.tp2_filled then remaining - p.quantity * (1/4) else remaining
  let remaining := if p.tp3_filled then remaining - p.quantity * (1/4) else remaining
  max 0 remaining

/-! ## Exit processing (virtual_trading/services/position_manager.py) -/

/-- The dict returned by `PositionManager._check_exit_conditions`. -/
structure ExitInfo where
  reason : String
  price : ℚ
  quantity_percent : ℤ
deriving DecidableEq

/-- Embeds `PositionManager._check_exit_conditions`: stop-loss is checked first,
    then TP1/TP2/TP3 in order; the first matched condition is returned. -/
def checkExitConditions (p : VirtualPosition)
    (current_price high_price low_price : ℚ) : Option ExitInfo :=
  if p.direction == "buy" then
    if low_price ≤ p.current_sl then
      some { reason := "Stop Loss", price := p.current_sl
             quantity_percent := p.get_remaining_percent }
    else if p.tp1_filled = false ∧ p.tp1 ≤ high_price then
      some { reason := "TP1", price := p.tp1, quantity_percent := 50 }
    else if p.tp1_filled = true ∧ p.tp2_filled = false ∧ p.tp2 ≤ high_price then
      some { reason := "TP2", price := p.tp2, quantity_percent := 25 }
    else if p.tp2_filled = true ∧ p.tp3_filled = false ∧ p.tp3 ≤ high_price then
      some { reason := "TP3", price := p.tp3, quantity_percent := 25 }
    else none
  else
    if p.current_sl ≤ high_price then
      some { reason := "Stop Loss", price := p.current_sl
             quantity_percent := p.get_remaining_percent }
    else if p.tp1_filled = false ∧ low_price ≤ p.tp1 then
      some { reason := "TP1", price := p.tp1, quantity_percent := 50 }
    else if p.tp1_filled = true ∧ p.tp2_filled = false ∧ low_price ≤ p.tp2 then
      some { reason := "TP2", price := p.tp2, quantity_percent := 25 }
    else if p.tp2_filled = true ∧ p.tp3_filled = false ∧ low_price ≤ p.tp3 then
      some { reason := "TP3", price := p.tp3, quantity_percent := 25 }
    else none

/-! ## Closed trades (virtual_trading/models/trade.py) -/

/-- Embeds the `ClosedTrade` dataclass.  The `duration_minutes` and
    `timing_info` metadata fields are not tracked by this embedding. -/
structure ClosedTrade where
  symbol : String
  direction : String
  entry_price : ℚ
  entry_time : ℚ
  exit_price : ℚ
  exit_time : ℚ
  exit_reason : String
  position_size_usd : ℚ
  quantity_closed : ℚ
  pnl_usd : ℚ
  pnl_percent : ℚ
deriving DecidableEq

/-- Embeds `PositionManager._close_position_partial`: computes the closed
    quantity and P&L, releases the settled notional through the balance
    manager, appends a `ClosedTrade`, and updates the position's fill flags
    (TP1 additionally moves the stop to breakeven).  `now` stands for
    `datetime.now()` at close time. -/
def closePositionPartial (bm : BalanceState) (p : VirtualPosition)
    (e : ExitInfo) (now : ℚ) : BalanceState × VirtualPosition × ClosedTrade :=
  let exit_price := e.price
  let quantity_percent : ℚ := (e.quantity_percent : ℚ)
  let reason := e.reason
  let quantity_to_close := p.quantity * (quantity_percent / 100)
  let pnl_per_unit :=
    if p.direction == "buy" then exit_price - p.entry_price
    else p.entry_price - exit_price
  let pnl_usd := quantity_to_close * pnl_per_unit
  let position_part_usd := bm.position_size_usd * (quantity_percent / 100)
  let pnl_percent := if position_part_usd > 0 then pnl_usd / position_part_usd * 100 else 0
  let bm1 := release_funds bm position_part_usd pnl_usd
  let p1 := { p with realized_pnl := p.realized_pnl + pnl_usd }
  let trade : ClosedTrade :=
    { symbol := p.symbol, direction := p.direction, entry_price := p.entry_price
      entry_time := p.entry_time, exit_price := exit_price, exit_time := now
      exit_reason := reason, position_size_usd := position_part_usd
      quantity_closed := quantity_to_close, pnl_usd := pnl_usd
      pnl_percent := pnl_percent }
  let p2 :=
    if reason == "TP1" then
      { p1 with tp1_filled := true, current_sl := p1.entry_price
                sl_moved_to_breakeven := true }
    else if reason == "TP2" then { p1 with tp2_filled := true }
    else if reason == "TP3" then { p1 with tp3_filled := true }
    else p1
  (bm1, p2, trade)

/-- Positions reachable through `PositionManager`'s exit processing: a freshly
    opened position, or the result of settling one exit event produced by
    `_check_exit_conditions` through `_close_position_partial`. -/
inductive ReachPos : VirtualPosition → Prop where
  | init (symbol direction : String) (entry_price entry_time size qty sl t1 t2 t3 : ℚ) :
      ReachPos (mkVirtualPosition symbol direction entry_price entry_time size qty sl t1 t2 t3)
  | step (p : VirtualPosition) (bm : BalanceState) (cur hi lo now : ℚ) (e : ExitInfo)
      (hp : ReachPos p) (he : checkExitConditions p cur hi lo = some e) :
      ReachPos (closePositionPartial bm p e now).2.1

theorem checkExit_reason_cases (p : VirtualPosition) (cur hi lo : ℚ) (e : ExitInfo)
    (he : checkExitConditions p cur hi lo = some e) :
    e.reason = "Stop Loss"
    ∨ (e.reason = "TP1" ∧ p.tp1_filled = false)
    ∨ (e.reason = "TP2" ∧ p.tp1_filled = true ∧ p.tp2_filled = false)
    ∨ (e.reason = "TP3" ∧ p.tp2_filled = true ∧ p.tp3_filled = false) := by
  unfold checkExitConditions at he
  split_ifs at he
  all_goals try (obtain rfl := Option.some.inj he)
  all_goals simp_all

theorem closePartial_flags (bm : BalanceState) (p : VirtualPosition)
    (e : ExitInfo) (now : ℚ) :
    ((closePositionPartial bm p e now).2.1).tp1_filled
        = (if e.reason == "TP1" then true else p.tp1_filled)
    ∧ ((closePositionPartial bm p e now).2.1).tp2_filled
        = (if e.reason == "TP1" then p.tp2_filled
           else if e.reason == "TP2" then true else p.tp2_filled)
    ∧ ((closePositionPartial bm p e now).2.1).tp3_filled
        = (if e.reason == "TP1" then p.tp3_filled
           else if e.reason == "TP2" then p.tp3_filled
           else if e.reason == "TP3" then true else p.tp3_filled) := by
  unfold closePositionPartial
  split_ifs <;> simp_all

theorem closePartial_percent_le (bm : BalanceState) (p : VirtualPosition)
    (e : ExitInfo) (now : ℚ) :
    ((closePositionPartial bm p e now).2.1).get_remaining_percent
      ≤ p.get_remaining_percent := by
  obtain ⟨h1, h2, h3⟩ := closePartial_flags bm p e now
  unfold VirtualPosition.get_remaining_percent
  rw [h1, h2, h3]
  cases he1 : e.reason == "TP1" <;> cases he2 : e.reason == "TP2" <;>
    cases he3 : e.reason == "TP3" <;>
      cases hb1 : p.tp1_filled <;> cases hb2 : p.tp2_filled <;>
        cases hb3 : p.tp3_filled <;> simp_all <;> decide

theorem reachPos_flag_order (p : VirtualPosition) (h : ReachPos p) :
    (p.tp2_filled = true → p.tp1_filled = true)
    ∧ (p.tp3_filled = true → p.tp2_filled = true) := by
  induction h with
  | init sy d ep et sz q sl t1 t2 t3 =>
    constructor <;> intro hx <;> simp [mkVirtualPosition] at hx
  | step p bm cur hi lo now e hp he ih =>
    obtain ⟨h1, h2, h3⟩ := closePartial_flags bm p e now
    rcases checkExit_reason_cases p cur hi lo e he with hr | ⟨hr, hf⟩
      | ⟨hr, hf1, hf2⟩ | ⟨hr, hf2, hf3⟩ <;>
      rw [hr] at h1 h2 h3 <;>
      constructor <;> intro hx <;>
      simp_all <;> tauto

theorem reachPos_percent_mem (p : VirtualPosition) (h : ReachPos p) :
    p.get_remaining_percent ∈ ([100, 50, 25, 0] : List ℤ) := by
  obtain ⟨h21, h32⟩ := reachPos_flag_order p h
  unfold VirtualPosition.get_remaining_percent
  cases hb1 : p.tp1_filled <;> cases hb2 : p.tp2_filled <;>
    cases hb3 : p.tp3_filled <;> simp_all <;> decide

/-- C2: every position reachable through the exit processing has
    `get_remaining_percent` in {100, 50, 25, 0}, and a partial close produced
    by `_check_exit_conditions` never increases it. -/
theorem c2_share_accounting :
    (∀ p : VirtualPosition, ReachPos p →
        p.get_remaining_percent ∈ ([100, 50, 25, 0] : List ℤ))
    ∧ (∀ (p : VirtualPosition) (bm : BalanceState) (cur hi lo now : ℚ) (e : ExitInfo),
        ReachPos p → checkExitConditions p cur hi lo = some e →
        ((closePositionPartial bm p e now).2.1).get_remaining_percent
          ≤ p.get_remaining_percent) :=
  ⟨fun p h => reachPos_percent_mem p h,
   fun p bm _cur _hi _lo now e _ _ => closePartial_percent_le bm p e now⟩

/-- Witness for C2 at a concrete freshly opened position. -/
theorem c2_share_accounting_witness :
    (mkVirtualPosition "BTCUSDT" "buy" 50000 0 200 (1/250)
        48000 52000 54000 56000).get_remaining_percent
      ∈ ([100, 50, 25, 0] : List ℤ) :=
  c2_share_accounting.1 _
    (ReachPos.init "BTCUSDT" "buy" 50000 0 200 (1/250) 48000 52000 54000 56000)

/-- C3: whenever the stop-loss condition holds for a candle (buy: low ≤
    current_sl; sell: high ≥ current_sl), `_check_exit_conditions` returns the
    'Stop Loss' event closing the entire remaining percent — even if a
    take-profit level is also touched by the same candle — and every call
    returns at most one exit event. -/
theorem c3_stop_loss_priority (p : VirtualPosition) (cur hi lo : ℚ)
    (hsl : if p.direction == "buy" then lo ≤ p.current_sl else p.current_sl ≤ hi) :
    checkExitConditions p cur hi lo
      = some { reason := "Stop Loss", price := p.current_sl
               quantity_percent := p.get_remaining_percent }
    ∧ (∀ e1 e2 : ExitInfo, checkExitConditions p cur hi lo = some e1 →
        checkExitConditions p cur hi lo = some e2 → e1 = e2) := by
  constructor
  · unfold checkExitConditions
    by_cases hd : (p.direction == "buy") = true
    · rw [if_pos hd] at hsl
      rw [if_pos hd, if_pos hsl]
    · rw [if_neg hd] at hsl
      rw [if_neg hd, if_pos hsl]
  · intro e1 e2 h1 h2
    rw [h1] at h2
    exact Option.some.inj h2

/-- Witness for C3: a buy position whose candle touches both the stop-loss and
    TP1 in the same bar still exits by stop-loss for the full remaining 100%. -/
theorem c3_stop_loss_priority_witness :
    checkExitConditions
        (mkVirtualPosition "BTCUSDT" "buy" 50000 0 200 (1/250) 48000 52000 54000 56000)
        52000 52500 47500
      = some { reason := "Stop Loss", price := 48000, quantity_percent := 100 } := by
  have h := (c3_stop_loss_priority
    (mkVirtualPosition "BTCUSDT" "buy" 50000 0 200 (1/250) 48000 52000 54000 56000)
    52000 52500 47500 (by norm_num [mkVirtualPosition])).1
  rw [h]
  norm_num [mkVirtualPosition, VirtualPosition.get_remaining_percent]

/-- The concrete Scenario-A position: BTCUSDT buy at 50000, size $200,
    quantity 200/50000 = 0.004, SL 48000, TPs 52000/54000/56000. -/
def c4pos : VirtualPosition :=
  mkVirtualPosition "BTCUSDT" "buy" 50000 0 200 (200/50000) 48000 52000 54000 56000

/-- Balance manager of Scenario A after reserving the $200 notional. -/
def c4bm : BalanceState := (reserve_funds (mkBalanceManager 10000 2 20) 200).2

def c4exit : ExitInfo := { reason := "TP1", price := 52000, quantity_percent := 50 }

/-- C4: on the Scenario-A position a candle reaching 52000 produces the TP1
    event; settling it closes quantity 0.002 with pnl $4.00, records a
    ClosedTrade with exit_reason 'TP1', sets tp1_filled, moves the stop to the
    entry 50000 with sl_moved_to_breakeven, and increases available_balance by
    exactly $104. -/
theorem c4_tp1_scenario :
    checkExitConditions c4pos 52000 52000 51000 = some c4exit
    ∧ (closePositionPartial c4bm c4pos c4exit 30).2.2.pnl_usd = 4
    ∧ (closePositionPartial c4bm c4pos c4exit 30).2.2.quantity_closed = 1/500
    ∧ (closePositionPartial c4bm c4pos c4exit 30).2.2.exit_reason = "TP1"
    ∧ (closePositionPartial c4bm c4pos c4exit 30).2.1.tp1_filled = true
    ∧ (closePositionPartial c4bm c4pos c4exit 30).2.1.current_sl = 50000
    ∧ (closePositionPartial c4bm c4pos c4exit 30).2.1.sl_moved_to_breakeven = true
    ∧ (closePositionPartial c4bm c4pos c4exit 30).1.available_balance
        = c4bm.available_balance + 104 := by
  refine ⟨?_, ?_, ?_, ?_, ?_, ?_, ?_, ?_⟩ <;>
    norm_num [c4pos, c4bm, c4exit, mkVirtualPosition, mkBalanceManager, reserve_funds,
      release_funds, checkExitConditions, closePositionPartial,
      VirtualPosition.get_remaining_percent]

/-! ## Balance calculations over the open-position map
    (virtual_trading/services/balance_manager.py) -/

/-- Embeds `BalanceManager.get_invested_capital`: summing
    `position_size_usd * remaining_percent / 100` over every position that still
    has a positive remaining percent. -/
def get_invested_capital (s : BalanceState)
    (positions : List (String × VirtualPosition)) : ℚ :=
  positions.foldl
    (fun acc kv =>
      let rp := kv.2.get_remaining_percent
      if rp > 0 then acc + s.position_size_usd * ((rp : ℚ) / 100) else acc)
    0

/-- Embeds `BalanceManager.get_unrealized_pnl`.  `prices = []` models the
    `current_prices=None` / empty-dict call (Python treats both as falsy and
    returns 0); a symbol missing from `prices` contributes nothing. -/
def get_unrealized_pnl (positions : List (String × VirtualPosition))
    (prices : List (String × ℚ)) : ℚ :=
  if prices = [] then 0
  else
    positions.foldl
      (fun acc kv =>
        match prices.lookup kv.1 with
        | none => acc
        | some price =>
          let rq := kv.2.get_remaining_quantity
          if rq ≤ 0 then acc
          else if kv.2.direction == "buy" then acc + rq * (price - kv.2.entry_price)
          else acc + rq * (kv.2.entry_price - price))
      0

/-- Embeds `BalanceManager.get_current_balance`:
    available + invested capital + unrealized P&L. -/
def get_current_balance (s : BalanceState)
    (positions : List (String × VirtualPosition)) (prices : List (String × ℚ)) : ℚ :=
  s.available_balance + get_invested_capital s positions
    + get_unrealized_pnl positions prices

/-- Embeds `BalanceManager.get_current_balance_v2`: available balance plus the
    mark-to-market value of the remaining quantities (zero when no prices are
    supplied).  The unrealized P&L the source computes on the side is unused in
    the returned value. -/
def get_current_balance_v2 (s : BalanceState)
    (positions : List (String × VirtualPosition)) (prices : List (String × ℚ)) : ℚ :=
  let market_value :=
    if prices = [] then 0
    else
      positions.foldl
        (fun acc kv =>
          match prices.lookup kv.1 with
          | none => acc
          | some price => acc + kv.2.get_remaining_quantity * price)
        0
  s.available_balance + market_value

/-- Embeds the `consistency_level` classification of
    `BalanceManager.check_balance_consistency`. -/
def consistencyLevel (d : ℚ) : String :=
  if |d| < 1 then "GOOD" else if |d| < 10 then "WARNING" else "CRITICAL"

/-- Embeds `BalanceManager.can_open_new_position`: the available-balance check,
    the exposure check, then the balance-consistency check, which the source
    invokes WITHOUT current prices (so the compared difference is exactly the
    invested capital). -/
def canOpenNewPosition (s : BalanceState)
    (positions : List (String × VirtualPosition)) : Bool × String :=
  if s.available_balance < s.position_size_usd then (false, "insufficient_balance")
  else
    let current_invested := get_invested_capital s positions
    let would_be_invested := current_invested + s.position_size_usd
    if would_be_invested > s.max_exposure_usd then (false, "exposure_limit")
    else
      let difference :=
        get_current_balance s positions [] - get_current_balance_v2 s positions []
      if ¬ (|difference| < 10) ∧ consistencyLevel difference = "CRITICAL" then
        (false, "balance_inconsistency")
      else (true, "ok")

/-! ## Position manager state (virtual_trading/services/position_manager.py) -/

/-- The signal dict consumed by `PositionManager.open_position` and
    `SmartTimingManager`.  The `take_profit` list is flattened into three
    fields. -/
structure TimingInfo where
  original_signal_price : ℚ
  timing_type : String
  wait_time_minutes : ℚ
  confirmations : ℕ
  entry_reason : String
deriving DecidableEq

structure Signal where
  symbol : String
  direction : String
  price : ℚ
  stop_loss : ℚ
  tp1 : ℚ
  tp2 : ℚ
  tp3 : ℚ
  signal_type : String
  confidence : ℚ
  timing_info : Option TimingInfo
deriving DecidableEq

/-- The mutable state owned by `PositionManager` (plus its balance manager). -/
structure PMState where
  bm : BalanceState
  open_positions : List (String × VirtualPosition)
  closed_trades : List ClosedTrade
deriving DecidableEq

def mkPositionManager (bm : BalanceState) : PMState :=
  { bm := bm, open_positions := [], closed_trades := [] }

/-- Embeds `PositionManager.open_position`: rejects a duplicate symbol, asks
    the balance manager for permission, reserves the notional, then creates the
    position and inserts it into the open-position map.  `now` stands for
    `datetime.now()` at open time. -/
def openPosition (st : PMState) (signal : Signal) (now : ℚ) : Bool × PMState :=
  if (st.open_positions.lookup signal.symbol).isSome then (false, st)
  else if (canOpenNewPosition st.bm st.open_positions).1 = false then (false, st)
  else
    let entry_price := signal.price
    let position_size_usd := st.bm.position_size_usd
    let quantity := position_size_usd / entry_price
    let r := reserve_funds st.bm position_size_usd
    if r.1 = false then (false, st)
    else
      let position := mkVirtualPosition signal.symbol signal.direction entry_price now
        position_size_usd quantity signal.stop_loss signal.tp1 signal.tp2 signal.tp3
      (true,
        { bm := r.2
          open_positions := st.open_positions ++ [(signal.symbol, position)]
          closed_trades := st.closed_trades })

theorem lookup_append_singleton {β : Type} (l : List (String × β)) (a : String) (b : β) :
    (List.lookup a (l ++ [(a, b)])).isSome = true := by
  induction l with
  | nil => simp [List.lookup]
  | cons kv rest ih =>
    by_cases h : a == kv.1
    · simp [List.lookup, h]
    · simpa [List.lookup, h] using ih

/-- C7: if `open_position` succeeds for a symbol, a second call for the same
    symbol with no intervening close returns False and leaves the whole
    position-manager state (open-position map and balance) unchanged. -/
theorem c7_open_idempotent (st : PMState) (signal : Signal) (now now' : ℚ)
    (st' : PMState) (h : openPosition st signal now = (true, st')) :
    openPosition st' signal now' = (false, st') := by
  simp only [openPosition] at h
  split_ifs at h with h1 h2 h3
  · exact absurd h (by simp)
  · exact absurd h (by simp)
  · exact absurd h (by simp)
  · injection h with ha hb
    subst hb
    unfold openPosition
    rw [if_pos]
    exact lookup_append_singleton st.open_positions signal.symbol _

/-- The signal used by the C7 witness. -/
def c7sig : Signal :=
  { symbol := "BTCUSDT", direction := "buy", price := 50000, stop_loss := 48000
    tp1 := 52000, tp2 := 54000, tp3 := 56000, signal_type := "technical_strict"
    confidence := 7/10, timing_info := none }

def c7st0 : PMState := mkPositionManager (mkBalanceManager 10000 2 20)

/-- Witness for C7: open BTCUSDT on a fresh manager (succeeds), then observe
    that the second open is a rejected no-op. -/
theorem c7_open_idempotent_witness :
    openPosition ((openPosition c7st0 c7sig 0).2) c7sig 5
      = (false, (openPosition c7st0 c7sig 0).2) := by
  apply c7_open_idempotent c7st0 c7sig 0 5
  norm_num [openPosition, c7st0, c7sig, mkPositionManager, mkBalanceManager,
    canOpenNewPosition, get_invested_capital, get_current_balance,
    get_current_balance_v2, get_unrealized_pnl, consistencyLevel, reserve_funds,
    mkVirtualPosition, List.lookup]

/-- One open Scenario-A-sized position with no fills, used to exhibit the
    `can_open_new_position` consistency-check behaviour. -/
def c5pos : VirtualPosition :=
  mkVirtualPosition "BTCUSDT" "buy" 50000 0 200 (200/50000) 48000 52000 54000 56000

def c5bm : BalanceState := (reserve_funds (mkBalanceManager 10000 2 20) 200).2

/-- C5: with one $200 position open (available $9800 ≥ $200 and exposure
    $200 + $200 ≤ $2000), the claim says `can_open_new_position` must return
    (True, "ok"); the code instead returns (False, "balance_inconsistency"),
    because `check_balance_consistency` is called without prices, making the
    compared difference equal the invested capital ($200 ≥ $10 → CRITICAL). -/
theorem c5_can_open_reason_bug :
    ¬ c5bm.available_balance < c5bm.position_size_usd
    ∧ get_invested_capital c5bm [("BTCUSDT", c5pos)] + c5bm.position_size_usd
        ≤ c5bm.max_exposure_usd
    ∧ canOpenNewPosition c5bm [("BTCUSDT", c5pos)]
        = (false, "balance_inconsistency") := by
  refine ⟨?_, ?_, ?_⟩ <;>
    norm_num [c5bm, c5pos, mkBalanceManager, mkVirtualPosition, reserve_funds,
      canOpenNewPosition, get_invested_capital, get_current_balance,
      get_current_balance_v2, get_unrealized_pnl, consistencyLevel,
      VirtualPosition.get_remaining_percent]

/-! ## Statistics (virtual_trading/services/statistics_calculator.py and
    PositionManager.get_trades_summary) -/

/-- Embeds the grouping key
    `f"{trade.symbol}_{trade.entry_time}_{trade.direction}"` of
    `StatisticsCalculator.calculate_trades_statistics`. -/
def tradeKey (t : ClosedTrade) : String :=
  t.symbol ++ "_" ++ toString t.entry_time ++ "_" ++ t.direction

/-- One entry of the `grouped_trades` dict: the accumulated pnl and the number
    of partial-exit parts sharing one key. -/
structure TradeGroup where
  key : String
  total_pnl : ℚ
  parts : ℕ
deriving DecidableEq

/-- Folds one trade into the insertion-ordered group list, as the
    `grouped_trades` dict loop does. -/
def addTradeToGroups : List TradeGroup → ClosedTrade → List TradeGroup
  | [], t => [{ key := tradeKey t, total_pnl := t.pnl_usd, parts := 1 }]
  | g :: gs, t =>
      if g.key == tradeKey t then
        { g with total_pnl := g.total_pnl + t.pnl_usd, parts := g.parts + 1 } :: gs
      else g :: addTradeToGroups gs t

def groupTrades (ts : List ClosedTrade) : List TradeGroup :=
  ts.foldl addTradeToGroups []

/-- The fields of the dict returned by
    `StatisticsCalculator.calculate_trades_statistics` that this development
    uses (averages, profit factor and streaks are further derived values). -/
structure TradesStatistics where
  total_trades : ℕ
  winning_trades : ℕ
  losing_trades : ℕ
  win_rate : ℚ
  total_pnl : ℚ
deriving DecidableEq

/-- Embeds `StatisticsCalculator.calculate_trades_statistics`: partial exits
    are grouped by (symbol, entry_time, direction) into logical trades; a
    logical trade wins iff its summed pnl is strictly positive. -/
def calculate_trades_statistics (ts : List ClosedTrade) : TradesStatistics :=
  if ts = [] then
    { total_trades := 0, winning_trades := 0, losing_trades := 0
      win_rate := 0, total_pnl := 0 }
  else
    let aggregated := groupTrades ts
    let winning := aggregated.filter (fun g => decide (g.total_pnl > 0))
    let losing := aggregated.filter (fun g => decide (g.total_pnl ≤ 0))
    let total_pnl := (aggregated.map (fun g => g.total_pnl)).sum
    let win_rate :=
      if aggregated.length > 0 then
        (winning.length : ℚ) / (aggregated.length : ℚ) * 100
      else 0
    { total_trades := aggregated.length, winning_trades := winning.length
      losing_trades := losing.length, win_rate := win_rate, total_pnl := total_pnl }

/-- The fields of the dict returned by `PositionManager.get_trades_summary`,
    which counts over the RAW closed-trade list. -/
structure TradesSummary where
  total_trades : ℕ
  winning_trades : ℕ
  losing_trades : ℕ
  win_rate : ℚ
  total_pnl : ℚ
deriving DecidableEq

/-- Embeds `PositionManager.get_trades_summary` (the `trades` preview list is
    not tracked). -/
def get_trades_summary (ts : List ClosedTrade) : TradesSummary :=
  if ts = [] then
    { total_trades := 0, winning_trades := 0, losing_trades := 0
      win_rate := 0, total_pnl := 0 }
  else
    let winning := ts.filter (fun t => decide (t.pnl_usd > 0))
    let losing := ts.filter (fun t => decide (t.pnl_usd ≤ 0))
    { total_trades := ts.length, winning_trades := winning.length
      losing_trades := losing.length
      win_rate := (winning.length : ℚ) / (ts.length : ℚ) * 100
      total_pnl := (ts.map (fun t => t.pnl_usd)).sum }

/-- C6: three ClosedTrade records sharing (symbol, entry_time, direction) with
    exit reasons TP1/TP2/TP3 collapse into exactly one logical trade, which is
    counted as winning iff the sum of the three pnl values is strictly
    positive. -/
theorem c6_grouped_statistics (t1 t2 t3 : ClosedTrade)
    (hs2 : t2.symbol = t1.symbol) (hs3 : t3.symbol = t1.symbol)
    (he2 : t2.entry_time = t1.entry_time) (he3 : t3.entry_time = t1.entry_time)
    (hd2 : t2.direction = t1.direction) (hd3 : t3.direction = t1.direction)
    (hr1 : t1.exit_reason = "TP1") (hr2 : t2.exit_reason = "TP2")
    (hr3 : t3.exit_reason = "TP3") :
    (calculate_trades_statistics [t1, t2, t3]).total_trades = 1
    ∧ ((calculate_trades_statistics [t1, t2, t3]).winning_trades = 1
        ↔ t1.pnl_usd + t2.pnl_usd + t3.pnl_usd > 0) := by
  have hk2 : tradeKey t2 = tradeKey t1 := by
    simp [tradeKey, hs2, he2, hd2]
  have hk3 : tradeKey t3 = tradeKey t1 := by
    simp [tradeKey, hs3, he3, hd3]
  have hgroups : groupTrades [t1, t2, t3]
      = [{ key := tradeKey t1, total_pnl := t1.pnl_usd + t2.pnl_usd + t3.pnl_usd
           parts := 3 }] := by
    simp [groupTrades, addTradeToGroups, hk2, hk3]
  constructor
  · simp [calculate_trades_statistics, hgroups]
  · by_cases hw : t1.pnl_usd + t2.pnl_usd + t3.pnl_usd > 0
    · simp [calculate_trades_statistics, hgroups, List.filter, hw]
    · simp [calculate_trades_statistics, hgroups, List.filter, hw]

/-- The three partial exits used by the C6 witness (one winning logical
    trade closed in three parts). -/
def c6t1 : ClosedTrade :=
  { symbol := "BTCUSDT", direction := "buy", entry_price := 50000, entry_time := 0
    exit_price := 52000, exit_time := 20, exit_reason := "TP1"
    position_size_usd := 100, quantity_closed := 1/500, pnl_usd := 4
    pnl_percent := 4 }

def c6t2 : ClosedTrade :=
  { symbol := "BTCUSDT", direction := "buy", entry_price := 50000, entry_time := 0
    exit_price := 54000, exit_time := 40, exit_reason := "TP2"
    position_size_usd := 50, quantity_closed := 1/1000, pnl_usd := 4
    pnl_percent := 8 }

def c6t3 : ClosedTrade :=
  { symbol := "BTCUSDT", direction := "buy", entry_price := 50000, entry_time := 0
    exit_price := 56000, exit_time := 60, exit_reason := "TP3"
    position_size_usd := 50, quantity_closed := 1/1000, pnl_usd := 6
    pnl_percent := 12 }

/-- Witness for C6 at the three concrete partial exits above. -/
theorem c6_grouped_statistics_witness :
    (calculate_trades_statistics [c6t1, c6t2, c6t3]).total_trades = 1
    ∧ ((calculate_trades_statistics [c6t1, c6t2, c6t3]).winning_trades = 1
        ↔ c6t1.pnl_usd + c6t2.pnl_usd + c6t3.pnl_usd > 0) :=
  c6_grouped_statistics c6t1 c6t2 c6t3 rfl rfl rfl rfl rfl rfl rfl rfl rfl

/-- C10: `PositionManager.get_trades_summary` counts every ClosedTrade record
    as an independent trade: its total_trades always equals the length of the
    raw closed-trade list (so a position exited via TP1, TP2 and TP3
    contributes 3 trades here, unlike the grouped counting of
    `calculate_trades_statistics`). -/
theorem c10_summary_counts_raw_records (ts : List ClosedTrade) :
    (get_trades_summary ts).total_trades = ts.length := by
  unfold get_trades_summary
  by_cases h : ts = []
  · subst h; simp
  · rw [if_neg h]

/-! ## Timing manager (core/timing_manager.py) -/

/-- Character-list matcher: the pattern matches at the head of the text. -/
def matchHere : List Char → List Char → Bool
  | [], _ => true
  | _ :: _, [] => false
  | c :: ps, d :: ds => c == d && matchHere ps ds

/-- The pattern occurs somewhere in the text. -/
def hasSubList (pat : List Char) : List Char → Bool
  | [] => matchHere pat []
  | d :: ds => matchHere pat (d :: ds) || hasSubList pat ds

/-- Embeds Python's substring test `pat in s`. -/
def strContains (s pat : String) : Bool := hasSubList pat.data s.data

/-- Embeds the `EntryTiming` enum. -/
inductive EntryTiming where
  | immediate
  | pullback
  | breakout
  | volume_spike
deriving DecidableEq

def timingTypeName : EntryTiming → String
  | .immediate => "immediate"
  | .pullback => "pullback"
  | .breakout => "breakout"
  | .volume_spike => "volume_spike"

/-- Embeds the `PendingEntry` dataclass. -/
structure PendingEntry where
  symbol : String
  direction : String
  signal_price : ℚ
  signal_time : ℚ
  signal_data : Signal
  timing_type : EntryTiming
  target_entry_price : Option ℚ
  max_wait_minutes : ℚ
  pullback_target : Option ℚ
  pullback_tolerance : ℚ
  required_confirmations : ℕ
  confirmations_received : ℕ
  is_active : Bool
  timeout_time : ℚ
  entry_attempts : ℕ
  max_attempts : ℕ
deriving DecidableEq

/-- Embeds the `PendingEntry` constructor as `add_signal_for_timing` invokes it
    (symbol, direction, signal_price, signal_time, signal_data, timing_type)
    together with `__post_init__`.  Because `__post_init__` runs at
    construction, `timeout_time` is derived from the DEFAULT
    `max_wait_minutes = 60`, before `_configure_timing_parameters` mutates
    `max_wait_minutes`. -/
def mkPendingEntry (symbol direction : String) (price time : ℚ)
    (sdata : Signal) (tt : EntryTiming) : PendingEntry :=
  { symbol := symbol, direction := direction, signal_price := price
    signal_time := time, signal_data := sdata, timing_type := tt
    target_entry_price := none
    max_wait_minutes := 60
    pullback_target := none
    pullback_tolerance := 2/1000
    required_confirmations := 2
    confirmations_received := 0
    is_active := true
    timeout_time := time + 60
    entry_attempts := 0
    max_attempts := 3 }

/-- Embeds the automatic branch of
    `SmartTimingManager._determine_timing_strategy` (strategy_hint = "auto"):
    the ML-high-confidence test comes first, then extreme-RSI, then strict. -/
def determineTimingStrategy (signal : Signal) : EntryTiming :=
  if strContains signal.signal_type "ml_" = true ∧ signal.confidence > 8/10 then
    EntryTiming.pullback
  else if strContains signal.signal_type "extreme_rsi" = true then
    EntryTiming.immediate
  else if strContains signal.signal_type "strict" = true then
    EntryTiming.pullback
  else EntryTiming.pullback

/-- Embeds `SmartTimingManager._configure_timing_parameters`.  Note that
    `timeout_time` is NOT recomputed here. -/
def configureTimingParameters (p : PendingEntry) : PendingEntry :=
  match p.timing_type with
  | .immediate =>
      { p with target_entry_price := some p.signal_price
               max_wait_minutes := 5
               required_confirmations := 1 }
  | .pullback =>
      if p.direction == "buy" then
        let pullback_distance := p.signal_price * (5/1000)
        { p with pullback_target := some (p.signal_price - pullback_distance)
                 target_entry_price := some (p.signal_price - pullback_distance)
                 max_wait_minutes := 60
                 required_confirmations := 2 }
      else
        let pullback_distance := p.signal_price * (5/1000)
        { p with pullback_target := some (p.signal_price + pullback_distance)
                 target_entry_price := some (p.signal_price + pullback_distance)
                 max_wait_minutes := 60
                 required_confirmations := 2 }
  | .breakout =>
      if p.direction == "buy" then
        { p with target_entry_price := some (p.signal_price * (1002/1000))
                 max_wait_minutes := 30
                 required_confirmations := 2 }
      else
        { p with target_entry_price := some (p.signal_price * (998/1000))
                 max_wait_minutes := 30
                 required_confirmations := 2 }
  | .volume_spike => p

/-- Embeds `SmartTimingManager.add_signal_for_timing` for one signal arriving
    at wall-clock minute `now`: strategy selection, `PendingEntry` construction
    (running `__post_init__`), then parameter configuration. -/
def addSignalForTiming (now : ℚ) (signal : Signal) : PendingEntry :=
  let tt := determineTimingStrategy signal
  configureTimingParameters
    (mkPendingEntry signal.symbol signal.direction signal.price now signal tt)

/-- One OHLCV candle as consumed by the timing checks. -/
structure Candle where
  high : ℚ
  low : ℚ
  close : ℚ
  volume : ℚ
deriving DecidableEq

/-- Python negative indexing `l[-k]`: `none` models the IndexError case. -/
def pyNegIdx (l : List ℚ) (k : ℕ) : Option ℚ :=
  if 1 ≤ k ∧ k ≤ l.length then l.get? (l.length - k) else none

/-- Pandas `tail(n)`. -/
def lastN (n : ℕ) (l : List ℚ) : List ℚ := l.drop (l.length - n)

/-- `l[-1] > l[-2]`, false when either index is out of range (the source
    guards this comparison with a length check, so no exception arises). -/
def lastGt (l : List ℚ) : Bool :=
  match pyNegIdx l 1, pyNegIdx l 2 with
  | some a, some b => decide (a > b)
  | _, _ => false

/-- `l[-1] < l[-2]` with the same convention. -/
def lastLt (l : List ℚ) : Bool :=
  match pyNegIdx l 1, pyNegIdx l 2 with
  | some a, some b => decide (a < b)
  | _, _ => false

/-- `volumes[-1] > volumes[-2] * 1.2` with the same convention. -/
def volGt12 (l : List ℚ) : Bool :=
  match pyNegIdx l 1, pyNegIdx l 2 with
  | some a, some b => decide (a > b * (12/10))
  | _, _ => false

/-- Weighted sum `x₀ + r·x₁ + r²·x₂ + …` over a list. -/
def ewmWeighted (r : ℚ) : List ℚ → ℚ
  | [] => 0
  | x :: t => x + r * ewmWeighted r t

/-- Last value of pandas `ewm(span=…).mean()` with the default `adjust=True`:
    the (1−α)-weighted mean of the series read backwards, α = 2/(span+1). -/
def ewmLast (span : ℕ) (xs : List ℚ) : ℚ :=
  let r : ℚ := 1 - 2 / ((span : ℚ) + 1)
  let den := ewmWeighted r (List.replicate xs.length 1)
  if den = 0 then 0 else ewmWeighted r xs.reverse / den

/-- The reversal-candle confirmation for a buy pullback:
    `closes[-1] > closes[-2] and closes[-2] < closes[-3]` guarded by
    `len >= 2`.  When the list has exactly two elements and the first
    comparison succeeds, the `[-3]` access raises IndexError — modelled as
    `none` (the surrounding try/except then yields the waiting decision). -/
def conf3Buy (closes : List ℚ) : Option Bool :=
  if 2 ≤ closes.length then
    match pyNegIdx closes 1, pyNegIdx closes 2 with
    | some a, some b =>
        if a > b then
          match pyNegIdx closes 3 with
          | some c => some (decide (b < c))
          | none => none
        else some false
    | _, _ => none
  else some false

/-- The reversal-candle confirmation for a sell pullback:
    `closes[-1] < closes[-2] and closes[-2] > closes[-3]`. -/
def conf3Sell (closes : List ℚ) : Option Bool :=
  if 2 ≤ closes.length then
    match pyNegIdx closes 1, pyNegIdx closes 2 with
    | some a, some b =>
        if a < b then
          match pyNegIdx closes 3 with
          | some c => some (decide (b > c))
          | none => none
        else some false
    | _, _ => none
  else some false

/-- The dict returned by `_evaluate_entry_conditions`. -/
structure EntryDecision where
  should_enter : Bool
  entry_price : ℚ
  reason : String
deriving DecidableEq

/-- Embeds `SmartTimingManager._check_pullback_conditions`, returning the
    decision together with the pending entry whose `confirmations_received`
    the source mutates in place. -/
def checkPullbackConditions (p : PendingEntry) (candles : List Candle)
    (cur : ℚ) : EntryDecision × PendingEntry :=
  let waiting : EntryDecision :=
    { should_enter := false, entry_price := cur, reason := "pullback_waiting" }
  match p.pullback_target with
  | none => (waiting, p)
  | some tgt =>
    let closes := candles.map (fun c => c.close)
    let ema20 := if 20 ≤ candles.length then ewmLast 20 closes else cur
    let recent_highs := lastN 4 (candles.map (fun c => c.high))
    let recent_lows := lastN 4 (candles.map (fun c => c.low))
    let recent_volumes := lastN 4 (candles.map (fun c => c.volume))
    let recent_closes := lastN 4 closes
    if p.direction == "buy" then
      match conf3Buy recent_closes with
      | none => (waiting, p)
      | some c3b =>
        let target_reached :=
          recent_lows.any (fun lo => decide (lo ≤ tgt * (1 + p.pullback_tolerance)))
        let c1 : ℕ := if cur ≤ ema20 * (1003/1000) then 1 else 0
        let c2 : ℕ := if 2 ≤ recent_volumes.length ∧ lastGt recent_volumes = true then 1 else 0
        let c3 : ℕ := if c3b then 1 else 0
        let c4 : ℕ := if 2 ≤ recent_lows.length ∧ lastGt recent_lows = true then 1 else 0
        let confirmations := c1 + c2 + c3 + c4
        let p1 := { p with confirmations_received := confirmations }
        if target_reached = true ∧ p.required_confirmations ≤ confirmations then
          ({ should_enter := true, entry_price := cur
             reason := "pullback_buy_confirmed_" ++ toString confirmations }, p1)
        else (waiting, p1)
    else
      match conf3Sell recent_closes with
      | none => (waiting, p)
      | some c3b =>
        let target_reached :=
          recent_highs.any (fun hi => decide (tgt * (1 - p.pullback_tolerance) ≤ hi))
        let c1 : ℕ := if ema20 * (997/1000) ≤ cur then 1 else 0
        let c2 : ℕ := if 2 ≤ recent_volumes.length ∧ lastGt recent_volumes = true then 1 else 0
        let c3 : ℕ := if c3b then 1 else 0
        let c4 : ℕ := if 2 ≤ recent_highs.length ∧ lastLt recent_highs = true then 1 else 0
        let confirmations := c1 + c2 + c3 + c4
        let p1 := { p with confirmations_received := confirmations }
        if target_reached = true ∧ p.required_confirmations ≤ confirmations then
          ({ should_enter := true, entry_price := cur
             reason := "pullback_sell_confirmed_" ++ toString confirmations }, p1)
        else (waiting, p1)

/-- Embeds `SmartTimingManager._check_breakout_conditions`.  A `None`
    `target_entry_price` would raise in the comparison and be caught by the
    surrounding try/except, yielding the waiting decision. -/
def checkBreakoutConditions (p : PendingEntry) (candles : List Candle)
    (cur : ℚ) : EntryDecision × PendingEntry :=
  let waiting : EntryDecision :=
    { should_enter := false, entry_price := cur, reason := "breakout_waiting" }
  let recent_volumes := lastN 3 (candles.map (fun c => c.volume))
  match p.target_entry_price with
  | none => (waiting, p)
  | some tgt =>
    if p.direction == "buy" then
      if tgt ≤ cur ∧ 2 ≤ recent_volumes.length ∧ volGt12 recent_volumes = true then
        ({ should_enter := true, entry_price := cur
           reason := "breakout_buy_confirmed" }, p)
      else (waiting, p)
    else
      if cur ≤ tgt ∧ 2 ≤ recent_volumes.length ∧ volGt12 recent_volumes = true then
        ({ should_enter := true, entry_price := cur
           reason := "breakout_sell_confirmed" }, p)
      else (waiting, p)

/-- Embeds `SmartTimingManager._evaluate_entry_conditions`. -/
def evaluateEntryConditions (p : PendingEntry) (candles : List Candle)
    (cur : ℚ) : EntryDecision × PendingEntry :=
  match p.timing_type with
  | .immediate =>
      ({ should_enter := true, entry_price := cur, reason := "immediate_entry" }, p)
  | .pullback => checkPullbackConditions p candles cur
  | .breakout => checkBreakoutConditions p candles cur
  | .volume_spike =>
      ({ should_enter := false, entry_price := cur, reason := "no_conditions" }, p)

/-- The ready signal handed back to the caller: the signal data with the entry
    price overwritten and the `timing_info` dict attached. -/
def readySignalOf (p : PendingEntry) (d : EntryDecision) (now : ℚ) : Signal :=
  { p.signal_data with
      price := d.entry_price
      timing_info := some
        { original_signal_price := p.signal_price
          timing_type := timingTypeName p.timing_type
          wait_time_minutes := now - p.signal_time
          confirmations := p.confirmations_received
          entry_reason := d.reason } }

/-- Embeds `SmartTimingManager.check_pending_entries` at wall-clock minute
    `now`.  `fetch` models `api.get_ohlcv`; `none` or an empty candle list
    models a failed fetch ("no data this cycle").  Returns the ready signals
    and the surviving pending map: an entry past its `timeout_time` is dropped
    before any data is fetched, a ready entry is removed after being returned,
    everything else is kept (with its confirmation counter updated). -/
def checkPendingEntries (now : ℚ) (fetch : String → Option (List Candle)) :
    List (String × PendingEntry) → List Signal × List (String × PendingEntry)
  | [] => ([], [])
  | (sym, p) :: rest =>
    let tailRes := checkPendingEntries now fetch rest
    if now > p.timeout_time then tailRes
    else
      match fetch sym with
      | none => (tailRes.1, (sym, p) :: tailRes.2)
      | some candles =>
        if candles.isEmpty then (tailRes.1, (sym, p) :: tailRes.2)
        else
          let cur := (candles.map (fun c => c.close)).getLastD 0
          let ev := evaluateEntryConditions p candles cur
          if ev.1.should_enter then
            (readySignalOf ev.2 ev.1 now :: tailRes.1, tailRes.2)
          else (tailRes.1, (sym, ev.2) :: tailRes.2)

/-- An ML-flavoured extreme-RSI signal with high confidence, refuting the
    unconditional form of C8. -/
def c8sigX : Signal :=
  { symbol := "BTCUSDT", direction := "buy", price := 50000, stop_loss := 48000
    tp1 := 52000, tp2 := 54000, tp3 := 56000, signal_type := "ml_extreme_rsi"
    confidence := 9/10, timing_info := none }

/-- Counterexample to C8 as stated: the signal type contains "extreme_rsi",
    yet the automatic strategy selection yields `pullback`, because the
    ML-high-confidence test is evaluated first. -/
theorem c8_extreme_rsi_counterexample :
    strContains c8sigX.signal_type "extreme_rsi" = true
    ∧ determineTimingStrategy c8sigX ≠ EntryTiming.immediate := by
  have h : determineTimingStrategy c8sigX = EntryTiming.pullback := by
    unfold determineTimingStrategy
    rw [if_pos ⟨by decide, by norm_num [c8sigX]⟩]
  exact ⟨by decide, by rw [h]; decide⟩

/-- C8 (amended): for every signal whose type contains "extreme_rsi" AND that
    is not captured first by the ML-high-confidence rule (type containing
    "ml_" with confidence > 0.8), the automatic selection yields the immediate
    strategy, whose pending entry has required_confirmations = 1,
    max_wait_minutes = 5 and target entry equal to the signal price. -/
theorem c8_extreme_rsi_immediate (signal : Signal) (now : ℚ)
    (hrsi : strContains signal.signal_type "extreme_rsi" = true)
    (hnotml : ¬ (strContains signal.signal_type "ml_" = true
                  ∧ signal.confidence > 8/10)) :
    determineTimingStrategy signal = EntryTiming.immediate
    ∧ (addSignalForTiming now signal).required_confirmations = 1
    ∧ (addSignalForTiming now signal).max_wait_minutes = 5
    ∧ (addSignalForTiming now signal).target_entry_price = some signal.price := by
  have ht : determineTimingStrategy signal = EntryTiming.immediate := by
    unfold determineTimingStrategy
    rw [if_neg hnotml, if_pos hrsi]
  refine ⟨ht, ?_, ?_, ?_⟩ <;>
    simp [addSignalForTiming, ht, mkPendingEntry, configureTimingParameters]

/-- A plain extreme-RSI signal for the C8 witness. -/
def c8sigW : Signal :=
  { symbol := "SOLUSDT", direction := "sell", price := 150, stop_loss := 160
    tp1 := 140, tp2 := 135, tp3 := 130, signal_type := "extreme_rsi_overbought"
    confidence := 1/2, timing_info := none }

/-- Witness for the amended C8 at a concrete non-ML extreme-RSI signal. -/
theorem c8_extreme_rsi_immediate_witness :
    determineTimingStrategy c8sigW = EntryTiming.immediate
    ∧ (addSignalForTiming 0 c8sigW).required_confirmations = 1
    ∧ (addSignalForTiming 0 c8sigW).max_wait_minutes = 5
    ∧ (addSignalForTiming 0 c8sigW).target_entry_price = some c8sigW.price :=
  c8_extreme_rsi_immediate c8sigW 0 (by decide)
    (fun hc => absurd hc.1 (by decide))

/-- An extreme-RSI signal arriving at minute 0, queued with the `immediate`
    strategy (max_wait 5 minutes). -/
def c9sig : Signal :=
  { symbol := "BTCUSDT", direction := "buy", price := 50000, stop_loss := 48000
    tp1 := 52000, tp2 := 54000, tp3 := 56000, signal_type := "extreme_rsi_oversold"
    confidence := 1/2, timing_info := none }

def c9pending : PendingEntry := addSignalForTiming 0 c9sig

def c9candle : Candle := { high := 50100, low := 49900, close := 50050, volume := 1000 }

def c9fetch : String → Option (List Candle) :=
  fun s => if s == "BTCUSDT" then some [c9candle] else none

/-- C9 (failing-input evaluation): the pending entry's configured
    `max_wait_minutes` is 5, so its claimed deadline signal_time + 5 has passed
    at evaluation minute 10; but its stored `timeout_time` is frozen at
    signal_time + 60 (computed in `__post_init__` before configuration), so
    `check_pending_entries` does NOT expire it — with market data available it
    returns the entry as READY (one ready signal, pending map emptied by the
    ready hand-off, not by a timeout). -/
theorem c9_timeout_frozen_bug :
    c9pending.max_wait_minutes = 5
    ∧ c9pending.timeout_time = 60
    ∧ c9pending.signal_time + c9pending.max_wait_minutes < 10
    ∧ (checkPendingEntries 10 c9fetch [("BTCUSDT", c9pending)]).1.length = 1
    ∧ (checkPendingEntries 10 c9fetch [("BTCUSDT", c9pending)]).2 = [] := by
  have hts : determineTimingStrategy c9sig = EntryTiming.immediate := by
    unfold determineTimingStrategy
    rw [if_neg (fun hc => absurd hc.1 (by decide)), if_pos (by decide)]
  refine ⟨?_, ?_, ?_, ?_, ?_⟩ <;>
    norm_num [c9pending, c9fetch, c9candle, addSignalForTiming, hts,
      mkPendingEntry, configureTimingParameters, checkPendingEntries,
      evaluateEntryConditions, readySignalOf, timingTypeName]
